import Mathlib

/-!
Verification of `src/optionalargs.h`: compile-time named optional arguments.

The header is a pure compile-time mechanism, so the embedding models C++
types as data.  `CppType` covers the scalar value types used by option
declarations (`int`, `bool`, enum types) together with the two wrapper
templates `OptionalArg_t<ValueType_t, filenameTag, lineNumberTag>` and
`OptionalArgWithDefault_t<ValueType_t, defaultValue, filenameTag,
lineNumberTag>`.  A runtime argument is a pair of its C++ type and its
model value (for a wrapper-typed argument the value is the `m_value`
payload; for a bare scalar it is the scalar itself).  C++ compile-time
failures (accessing `.m_value` on a non-struct, an impossible implicit
conversion) are modelled by `Option`: `none` is "this instantiation is
ill-formed".
-/

namespace OptionalArgs

/-- Model values of the scalar C++ types used by option declarations. -/
inductive Value where
  | intV (i : Int)
  | boolV (b : Bool)
  | enumV (enumName : String) (k : Int)
deriving DecidableEq, Repr

/-- The C++ types that can appear as an argument or as an option's value
type: scalars (`int`, `bool`, enum types) and the two wrapper templates of
`optionalargs.h` lines 18-28.  A wrapper type is identified by its value
type, (for `OptionalArgWithDefault_t`) its default value, and the
declaration-site tags `filenameTag` / `lineNumberTag`, exactly the
template parameters of the source. -/
inductive CppType where
  | intT
  | boolT
  | enumT (enumName : String)
  | optArg (vt : CppType) (filenameTag : String) (lineNumberTag : Int)
  | optArgDef (vt : CppType) (defaultValue : Value) (filenameTag : String) (lineNumberTag : Int)
deriving DecidableEq, Repr

/-- Whether a type is one of the two option wrapper structs. -/
def CppType.isWrapper : CppType → Bool
  | .optArg _ _ _ => true
  | .optArgDef _ _ _ _ => true
  | _ => false

/-- The declared value type of a wrapper (the type of its `m_value`
member); a scalar type is its own value type. -/
def CppType.valueTypeOf : CppType → CppType
  | .optArg vt _ _ => vt
  | .optArgDef vt _ _ _ => vt
  | t => t

/-- Value-initialization (`{}`) of a C++ type: scalars zero-initialize;
`OptionalArg_t` value-initializes `m_value{}` (line 21); value-initializing
`OptionalArgWithDefault_t` uses the default member initializer
`m_value = defaultValue` (line 27). -/
def zeroValue : CppType → Value
  | .intT => .intV 0
  | .boolT => .boolV false
  | .enumT n => .enumV n 0
  | .optArg vt _ _ => zeroValue vt
  | .optArgDef _ d _ _ => d

/-- The payload of a default-constructed instance, i.e. what
`T tmp; return tmp.m_value;` (lines 43-44 and 69-70) produces: `m_value{}`
for `OptionalArg_t`, the declared default for `OptionalArgWithDefault_t`,
and ill-formed (`none`) when `T` is not a wrapper struct, since a scalar
has no `m_value` member. -/
def defaultPayload : CppType → Option Value
  | .optArg vt _ _ => some (zeroValue vt)
  | .optArgDef _ d _ _ => some d
  | _ => none

/-- `v` is a value of scalar type `t`. -/
def valHasType : Value → CppType → Bool
  | .intV _, .intT => true
  | .boolV _, .boolT => true
  | .enumV n _, .enumT m => n == m
  | _, _ => false

/-- `std::is_convertible_v<s, t>` for the types of the model: every type
converts to itself (copy), `int` and `bool` interconvert, and an unscoped
enum converts to the arithmetic types.  The wrapper structs declare no
conversion operator, so they convert only to themselves. -/
def is_convertible : CppType → CppType → Bool
  | s, t =>
    s == t ||
    match s, t with
    | .intT, .boolT => true
    | .boolT, .intT => true
    | .enumT _, .intT => true
    | .enumT _, .boolT => true
    | _, _ => false

/-- The result of implicitly converting a value `v` of C++ type `s` to
type `t` (as in `return expr;` with declared return type `t`): identity
for `s = t`, the standard conversions between `int` / `bool` / enums
otherwise, and ill-formed (`none`) when no implicit conversion exists. -/
def convert (s : CppType) (v : Value) (t : CppType) : Option Value :=
  if s = t then some v
  else
    match s, v, t with
    | .intT, .intV i, .boolT => some (.boolV (i != 0))
    | .boolT, .boolV b, .intT => some (.intV (if b then 1 else 0))
    | .enumT n, .enumV m k, .intT => if n = m then some (.intV k) else none
    | .enumT n, .enumV m k, .boolT => if n = m then some (.boolV (k != 0)) else none
    | _, _, _ => none

/-- One element of an Argument Sequence: its C++ type and its model value
(the `m_value` payload when the type is a wrapper, the scalar itself
otherwise). -/
structure Arg where
  type : CppType
  value : Value
deriving DecidableEq, Repr

/-- `arg.m_value`: defined exactly when the argument is a wrapper struct;
a scalar argument has no such member, so the access is ill-formed. -/
def extractMValue (a : Arg) : Option Value :=
  if a.type.isWrapper then some a.value else none

/-- `GetOptionValue<T>(args...)` (lines 40-72).  Overload resolution picks
the zero-argument overload (lines 40-45) for an empty pack, the
single-argument overload (lines 60-72) for one argument (preferred over
the variadic one as more specialized), and the variadic overload
(lines 47-58) otherwise; the recursion on `restArgs...` therefore ends in
the single-argument overload.  A matched argument is unconditionally
accessed as `arg.m_value`; absence falls through to
`T tmp; return tmp.m_value;`. -/
def GetOptionValue (T : CppType) : List Arg → Option Value
  | [] => defaultPayload T
  | [a] => if a.type = T then extractMValue a else defaultPayload T
  | a :: rest => if a.type = T then extractMValue a else GetOptionValue T rest

/-- `GetOptionValueWithDefault<T>(defaultValue, args...)` (lines 75-112),
where `dt` is `ValueType_t`, the C++ type of the supplied `defaultValue`
`dv`.  The variadic overload (lines 81-99) handles two or more arguments:
on a type match it returns the whole argument when
`is_convertible_v<FirstArgType_t, ValueType_t>` holds (the scalar path,
line 88), else `arg.m_value` (line 92), both converted to the declared
return type `ValueType_t`.  The single-argument overload (lines 101-112)
ends the recursion: on a match it returns `arg.m_value` with no
convertibility test; otherwise `defaultValue`.  The zero-argument overload
(lines 75-79) returns `defaultValue`. -/
def GetOptionValueWithDefault (T dt : CppType) (dv : Value) : List Arg → Option Value
  | [] => some dv
  | [a] =>
    if a.type = T then (extractMValue a).bind (fun v => convert a.type.valueTypeOf v dt)
    else some dv
  | a :: rest =>
    if a.type = T then
      if is_convertible a.type dt then convert a.type a.value dt
      else (extractMValue a).bind (fun v => convert a.type.valueTypeOf v dt)
    else GetOptionValueWithDefault T dt dv rest

/-- `opt::ItemCount` (line 120): `OptionalArgWithDefault_t<int, 256, __FILE__, 120>`. -/
def ItemCount : CppType := .optArgDef .intT (.intV 256) "optionalargs.h" 120

/-- `opt::VerboseLogs` (line 121): `OptionalArgWithDefault_t<bool, false, __FILE__, 121>`. -/
def VerboseLogs : CppType := .optArgDef .boolT (.boolV false) "optionalargs.h" 121

/-- The observable state of `TestClass` (lines 140-161): its two data
members (the `m_pData` buffer is sized from `m_nNumItems` and carries no
further observable state). -/
structure TestClassState where
  m_nNumItems : Int
  m_bVerboseLogs : Bool
deriving DecidableEq, Repr

/-- The two `SetOption` overloads (lines 156-157): one per supported
option type, selected by exact type; any other argument type has no
matching overload and is rejected at compile time (`none`). -/
def SetOption (s : TestClassState) (a : Arg) : Option TestClassState :=
  if a.type = ItemCount then
    match a.value with
    | .intV n => some { s with m_nNumItems := n }
    | _ => none
  else if a.type = VerboseLogs then
    match a.value with
    | .boolV b => some { s with m_bVerboseLogs := b }
    | _ => none
  else none

/-- The `TestClass` constructor (lines 143-154): members start at their
initializers `m_nNumItems = 101`, `m_bVerboseLogs = false` (lines 158,
160), then the fold expression `( SetOption( options), ...)` applies
`SetOption` to each argument in call order. -/
def TestClassCtor (options : List Arg) : Option TestClassState :=
  options.foldlM SetOption ⟨101, false⟩

/-- An enum option type used directly (unwrapped), the "scalar options
like enums" of the comment at line 86. -/
def EnumE : CppType := .enumT "E"

/-- Constructing a wrapper instance from an explicit value of C++ type `s`
(initialization `OptionType( v )` as at lines 185-194): the payload is `v`
converted to the declared value type; ill-formed when the target is not a
wrapper struct or no implicit conversion exists (the compile-time
type-mismatch rejection). -/
def constructFrom (T : CppType) (s : CppType) (v : Value) : Option Value :=
  match T with
  | .optArg vt _ _ => convert s v vt
  | .optArgDef vt _ _ _ => convert s v vt
  | _ => none

/- Helper lemmas about the two lookups. -/

theorem arg_eq_of_parts (x y : Arg) (ht : x.type = y.type) (hv : x.value = y.value) :
    x = y := by
  cases x; cases y; simp_all

theorem getOptionValue_skip (T : CppType) (b : Arg) (l : List Arg) (hb : b.type ≠ T) :
    GetOptionValue T (b :: l) = GetOptionValue T l := by
  cases l with
  | nil => simp [GetOptionValue, hb]
  | cons c cs => simp [GetOptionValue, hb]

theorem getOptionValue_found (T : CppType) (a : Arg) (l : List Arg) (ha : a.type = T) :
    GetOptionValue T (a :: l) = extractMValue a := by
  cases l with
  | nil => simp [GetOptionValue, ha]
  | cons c cs => simp [GetOptionValue, ha]

theorem getOptionValue_absent (T : CppType) (args : List Arg)
    (h : ∀ a ∈ args, a.type ≠ T) :
    GetOptionValue T args = defaultPayload T := by
  induction args with
  | nil => rfl
  | cons b bs ih =>
    rw [getOptionValue_skip T b bs (h b (by simp))]
    exact ih (fun a ha => h a (by simp [ha]))

theorem getOptionValue_firstMatch (T : CppType) (pre post : List Arg) (a : Arg)
    (ha : a.type = T) (hpre : ∀ b ∈ pre, b.type ≠ T) :
    GetOptionValue T (pre ++ a :: post) = extractMValue a := by
  induction pre with
  | nil => simpa using getOptionValue_found T a post ha
  | cons b bs ih =>
    rw [List.cons_append, getOptionValue_skip T b _ (hpre b (by simp))]
    exact ih (fun c hc => hpre c (by simp [hc]))

theorem getOptionValueWithDefault_skip (T dt : CppType) (dv : Value) (b : Arg)
    (l : List Arg) (hb : b.type ≠ T) :
    GetOptionValueWithDefault T dt dv (b :: l) = GetOptionValueWithDefault T dt dv l := by
  cases l with
  | nil => simp [GetOptionValueWithDefault, hb]
  | cons c cs => simp [GetOptionValueWithDefault, hb]

theorem getOptionValueWithDefault_absent (T dt : CppType) (dv : Value) (args : List Arg)
    (h : ∀ a ∈ args, a.type ≠ T) :
    GetOptionValueWithDefault T dt dv args = some dv := by
  induction args with
  | nil => rfl
  | cons b bs ih =>
    rw [getOptionValueWithDefault_skip T dt dv b bs (h b (by simp))]
    exact ih (fun a ha => h a (by simp [ha]))

theorem getOptionValueWithDefault_found_last (T dt : CppType) (dv : Value) (a : Arg)
    (ha : a.type = T) :
    GetOptionValueWithDefault T dt dv [a] =
      (extractMValue a).bind (fun v => convert a.type.valueTypeOf v dt) := by
  simp [GetOptionValueWithDefault, ha]

theorem getOptionValueWithDefault_found_cons (T dt : CppType) (dv : Value) (a c : Arg)
    (cs : List Arg) (ha : a.type = T) :
    GetOptionValueWithDefault T dt dv (a :: c :: cs) =
      if is_convertible a.type dt then convert a.type a.value dt
      else (extractMValue a).bind (fun v => convert a.type.valueTypeOf v dt) := by
  simp [GetOptionValueWithDefault, ha]

theorem wrapper_not_convertible (T vt : CppType) (hT : T.isWrapper = true)
    (hvt : vt.isWrapper = false) :
    is_convertible T vt = false := by
  cases T <;> cases vt <;> simp_all [is_convertible, CppType.isWrapper]

theorem getOptionValueWithDefault_firstMatch_wrapped (T dt : CppType) (dv : Value)
    (pre post : List Arg) (a : Arg) (ha : a.type = T)
    (hpre : ∀ b ∈ pre, b.type ≠ T)
    (hT : T.isWrapper = true) (hconv : is_convertible T dt = false) :
    GetOptionValueWithDefault T dt dv (pre ++ a :: post) =
      convert T.valueTypeOf a.value dt := by
  induction pre with
  | nil =>
    rw [List.nil_append]
    cases post with
    | nil =>
      rw [getOptionValueWithDefault_found_last T dt dv a ha, ha]
      simp [extractMValue, ha, hT]
    | cons c cs =>
      rw [getOptionValueWithDefault_found_cons T dt dv a c cs ha, ha, if_neg (by simp [hconv])]
      simp [extractMValue, ha, hT]
  | cons b bs ih =>
    rw [List.cons_append, getOptionValueWithDefault_skip T dt dv b _ (hpre b (by simp))]
    exact ih (fun c hc => hpre c (by simp [hc]))

theorem getOptionValueWithDefault_firstMatch_scalar (T dt : CppType) (dv : Value)
    (pre : List Arg) (a c : Arg) (cs : List Arg) (ha : a.type = T)
    (hpre : ∀ b ∈ pre, b.type ≠ T) (hconv : is_convertible T dt = true) :
    GetOptionValueWithDefault T dt dv (pre ++ a :: c :: cs) = convert T a.value dt := by
  induction pre with
  | nil =>
    rw [List.nil_append, getOptionValueWithDefault_found_cons T dt dv a c cs ha, ha,
      if_pos hconv]
  | cons b bs ih =>
    rw [List.cons_append, getOptionValueWithDefault_skip T dt dv b _ (hpre b (by simp))]
    exact ih (fun d hd => hpre d (by simp [hd]))

/-- C1: for every option wrapper type `T` and every Argument Sequence in
which the first (here: only) instance of `T` carries payload `v`,
`GetOptionValue<T>` over the sequence returns `v`, at every position of
the match and for arbitrary other elements before and after. -/
theorem claim_C1 (T : CppType) (hT : T.isWrapper = true)
    (pre post : List Arg) (a : Arg) (ha : a.type = T)
    (hpre : ∀ b ∈ pre, b.type ≠ T) :
    GetOptionValue T (pre ++ a :: post) = some a.value := by
  rw [getOptionValue_firstMatch T pre post a ha hpre]
  simp [extractMValue, ha, hT]

/-- Witness for C1: `ItemCount` between two unrelated arguments. -/
theorem claim_C1_witness :
    ItemCount.isWrapper = true ∧
    GetOptionValue ItemCount
      [⟨VerboseLogs, .boolV true⟩, ⟨ItemCount, .intV 50⟩, ⟨EnumE, .enumV "E" 1⟩] =
      some (.intV 50) := by
  refine ⟨by decide, ?_⟩
  simpa using claim_C1 ItemCount (by decide) [⟨VerboseLogs, .boolV true⟩]
    [⟨EnumE, .enumV "E" 1⟩] ⟨ItemCount, .intV 50⟩ rfl (by decide)

/-- C2: when an Argument Sequence holds two instances of the option
wrapper type `T`, with payloads `v1` (earlier, first match) and `v2`
(later), both `GetOptionValue<T>` and `GetOptionValueWithDefault<T>`
(called with a default of the option's value type) return `v1`: the
leftmost match wins and the later duplicate is ignored. -/
theorem claim_C2 (T : CppType) (hT : T.isWrapper = true)
    (hvt : T.valueTypeOf.isWrapper = false)
    (pre mid post : List Arg) (a1 a2 : Arg)
    (ha1 : a1.type = T) (ha2 : a2.type = T)
    (hpre : ∀ b ∈ pre, b.type ≠ T) (dv : Value) :
    GetOptionValue T (pre ++ a1 :: (mid ++ a2 :: post)) = some a1.value ∧
    GetOptionValueWithDefault T T.valueTypeOf dv (pre ++ a1 :: (mid ++ a2 :: post)) =
      some a1.value := by
  constructor
  · rw [getOptionValue_firstMatch T pre (mid ++ a2 :: post) a1 ha1 hpre]
    simp [extractMValue, ha1, hT]
  · rw [getOptionValueWithDefault_firstMatch_wrapped T T.valueTypeOf dv pre
      (mid ++ a2 :: post) a1 ha1 hpre hT (wrapper_not_convertible T T.valueTypeOf hT hvt)]
    simp [convert]

/-- Witness for C2: two `ItemCount` arguments; both lookups return the
payload of the first. -/
theorem claim_C2_witness :
    ItemCount.isWrapper = true ∧
    ItemCount.valueTypeOf.isWrapper = false ∧
    GetOptionValue ItemCount [⟨ItemCount, .intV 1⟩, ⟨ItemCount, .intV 2⟩] =
      some (.intV 1) ∧
    GetOptionValueWithDefault ItemCount ItemCount.valueTypeOf (.intV 7)
      [⟨ItemCount, .intV 1⟩, ⟨ItemCount, .intV 2⟩] = some (.intV 1) := by
  refine ⟨by decide, by decide, ?_⟩
  have h := claim_C2 ItemCount (by decide) (by decide) [] [] []
    ⟨ItemCount, .intV 1⟩ ⟨ItemCount, .intV 2⟩ rfl rfl (by decide) (.intV 7)
  constructor
  · simpa using h.1
  · simpa using h.2

/-- C3 (amended): for every Argument Sequence containing no instance of
the target option type, `GetOptionValue<T>` returns the payload of a
default-constructed `T`: the zero value of the value type when `T` was
declared without a default (`OptionalArg_t`), but the declared default
`d` — not the zero value — when `T` was declared with one
(`OptionalArgWithDefault_t`). -/
theorem claim_C3 (vt : CppType) (d : Value) (f : String) (l : Int) (args : List Arg)
    (h1 : ∀ a ∈ args, a.type ≠ CppType.optArg vt f l)
    (h2 : ∀ a ∈ args, a.type ≠ CppType.optArgDef vt d f l) :
    GetOptionValue (CppType.optArg vt f l) args = some (zeroValue vt) ∧
    GetOptionValue (CppType.optArgDef vt d f l) args = some d := by
  constructor
  · rw [getOptionValue_absent _ _ h1]; rfl
  · rw [getOptionValue_absent _ _ h2]; rfl

/-- Counterexample to C3 as stated: `opt::ItemCount` is declared with
default 256; on the empty Argument Sequence `GetOptionValue<ItemCount>`
returns 256, not the zero value of `int`. -/
theorem claim_C3_counterexample :
    zeroValue CppType.intT = .intV 0 ∧
    GetOptionValue ItemCount [] = some (.intV 256) ∧
    ¬ GetOptionValue ItemCount [] = some (.intV 0) := by decide

/-- Witness for C3 (amended): options of value type `int` declared at
file "a.h" line 1, absent from a one-element sequence. -/
theorem claim_C3_witness :
    GetOptionValue (CppType.optArg .intT "a.h" 1) [⟨VerboseLogs, .boolV true⟩] =
      some (zeroValue .intT) ∧
    GetOptionValue (CppType.optArgDef .intT (.intV 5) "a.h" 1) [⟨VerboseLogs, .boolV true⟩] =
      some (.intV 5) :=
  claim_C3 .intT (.intV 5) "a.h" 1 [⟨VerboseLogs, .boolV true⟩] (by decide) (by decide)

/-- C4: for every target type `T` and every Argument Sequence with no
instance of `T` (the empty one included), `GetOptionValueWithDefault<T>`
returns exactly the caller-supplied default, whatever default may be
embedded in `T`'s declaration. -/
theorem claim_C4 (T dt : CppType) (dv : Value) (args : List Arg)
    (h : ∀ a ∈ args, a.type ≠ T) :
    GetOptionValueWithDefault T dt dv args = some dv :=
  getOptionValueWithDefault_absent T dt dv args h

/-- Witness for C4: `ItemCount` (declared default 256) absent; the
caller-supplied default 7 is returned. -/
theorem claim_C4_witness :
    GetOptionValueWithDefault ItemCount .intT (.intV 7) [⟨VerboseLogs, .boolV true⟩] =
      some (.intV 7) ∧
    GetOptionValueWithDefault ItemCount .intT (.intV 7) [] = some (.intV 7) :=
  ⟨claim_C4 ItemCount .intT (.intV 7) [⟨VerboseLogs, .boolV true⟩] (by decide),
   claim_C4 ItemCount .intT (.intV 7) [] (by decide)⟩

/-- C5 (evaluation at the failing input): for the scalar (enum-like)
option type `E`, `GetOptionValueWithDefault<E>` performs the
convertibility check and passes the scalar through when the match is
followed by another argument — but when the matched scalar is the last
argument, the single-argument base case (lines 101-112) unconditionally
accesses `arg.m_value`, which is ill-formed for a scalar, so the claimed
check is absent at the last position. -/
theorem claim_C5 :
    GetOptionValueWithDefault EnumE EnumE (.enumV "E" 0)
      [⟨EnumE, .enumV "E" 5⟩, ⟨VerboseLogs, .boolV true⟩] = some (.enumV "E" 5) ∧
    GetOptionValueWithDefault EnumE EnumE (.enumV "E" 0)
      [⟨EnumE, .enumV "E" 5⟩] = none := by decide

/-- C6 (amended): the setter pattern is order-independent across the two
distinct option types, and `[ItemCount(50)]` / `[VerboseLogs(true),
ItemCount(100)]` give the claimed states — but with no arguments the
resulting state is `itemCount = 101` (the member initializer of
`TestClass`, line 158), not the option's declared default 256: `SetOption`
is only invoked once per argument, so the declaration default never
reaches the class. -/
theorem claim_C6 (i : Int) (b : Bool) :
    TestClassCtor [⟨ItemCount, .intV i⟩, ⟨VerboseLogs, .boolV b⟩] =
      TestClassCtor [⟨VerboseLogs, .boolV b⟩, ⟨ItemCount, .intV i⟩] ∧
    TestClassCtor [] = some ⟨101, false⟩ ∧
    TestClassCtor [⟨ItemCount, .intV 50⟩] = some ⟨50, false⟩ ∧
    TestClassCtor [⟨VerboseLogs, .boolV true⟩, ⟨ItemCount, .intV 100⟩] =
      some ⟨100, true⟩ := by
  refine ⟨?_, by decide, by decide, by decide⟩
  simp [TestClassCtor, List.foldlM, SetOption, ItemCount, VerboseLogs]

/-- Counterexample to C6 as stated: with no arguments the constructed
state has `itemCount = 101`, not 256. -/
theorem claim_C6_counterexample :
    (TestClassCtor []).map TestClassState.m_nNumItems = some 101 ∧
    ¬ (TestClassCtor []).map TestClassState.m_nNumItems = some 256 := by decide

/-- C7: two option declarations with the same value type and the same
default but distinct declaration sites produce distinct types, and a
one-element Argument Sequence holding an instance of one never matches a
lookup targeting the other: `GetOptionValue` falls through to the
default-constructed payload (the declared default `d`) and
`GetOptionValueWithDefault` to the caller-supplied default. -/
theorem claim_C7 (vt dt : CppType) (d dv : Value) (f1 f2 : String) (l1 l2 : Int)
    (hsite : ¬ (f1 = f2 ∧ l1 = l2)) (v : Value) :
    CppType.optArgDef vt d f1 l1 ≠ CppType.optArgDef vt d f2 l2 ∧
    GetOptionValue (CppType.optArgDef vt d f1 l1)
      [⟨CppType.optArgDef vt d f2 l2, v⟩] = some d ∧
    GetOptionValueWithDefault (CppType.optArgDef vt d f1 l1) dt dv
      [⟨CppType.optArgDef vt d f2 l2, v⟩] = some dv := by
  have hne : CppType.optArgDef vt d f1 l1 ≠ CppType.optArgDef vt d f2 l2 := by
    intro h
    injection h with h1 h2 h3 h4
    exact hsite ⟨h3, h4⟩
  have habsent : ∀ a ∈ [(⟨CppType.optArgDef vt d f2 l2, v⟩ : Arg)],
      a.type ≠ CppType.optArgDef vt d f1 l1 := by
    intro a ha
    simp at ha
    rw [ha]
    exact Ne.symm hne
  refine ⟨hne, ?_, getOptionValueWithDefault_absent _ _ _ _ habsent⟩
  rw [getOptionValue_absent _ _ habsent]
  rfl

/-- Witness for C7: same value type `int`, same default 5, sites
("a.h", 1) and ("a.h", 2). -/
theorem claim_C7_witness :
    ¬ (("a.h" : String) = "a.h" ∧ (1 : Int) = 2) ∧
    CppType.optArgDef .intT (.intV 5) "a.h" 1 ≠ CppType.optArgDef .intT (.intV 5) "a.h" 2 ∧
    GetOptionValue (CppType.optArgDef .intT (.intV 5) "a.h" 1)
      [⟨CppType.optArgDef .intT (.intV 5) "a.h" 2, .intV 9⟩] = some (.intV 5) ∧
    GetOptionValueWithDefault (CppType.optArgDef .intT (.intV 5) "a.h" 1) .intT (.intV 7)
      [⟨CppType.optArgDef .intT (.intV 5) "a.h" 2, .intV 9⟩] = some (.intV 7) :=
  ⟨by decide, claim_C7 .intT .intT (.intV 5) (.intV 7) "a.h" "a.h" 1 2 (by decide) (.intV 9)⟩

/-- C8: both factory products are default-constructible — the payload of a
default-constructed instance is the zero value of the value type for
`OptionalArg_t` and the declared default for `OptionalArgWithDefault_t` —
and constructing either from an explicit value of the value type makes
that value the payload, overriding the default. -/
theorem claim_C8 (vt : CppType) (d : Value) (f : String) (l : Int) (v : Value) :
    defaultPayload (CppType.optArg vt f l) = some (zeroValue vt) ∧
    defaultPayload (CppType.optArgDef vt d f l) = some d ∧
    constructFrom (CppType.optArg vt f l) vt v = some v ∧
    constructFrom (CppType.optArgDef vt d f l) vt v = some v := by
  refine ⟨rfl, rfl, ?_, ?_⟩ <;> simp [constructFrom, convert]

/-- C9: `GetOptionValue<T>` has no scalar path: at every position of the
first type match, the last included, it returns `arg.m_value`
unconditionally, hence `none` (ill-formed) whenever `T` is not a wrapper
struct; a bare scalar option is accepted by `GetOptionValueWithDefault`
(here: at a non-final position), which returns the scalar converted to
the default's type. -/
theorem claim_C9 (T : CppType) (pre post : List Arg) (a : Arg) (ha : a.type = T)
    (hpre : ∀ b ∈ pre, b.type ≠ T) (dt : CppType) (dv : Value) :
    GetOptionValue T (pre ++ a :: post) = extractMValue a ∧
    (T.isWrapper = false → GetOptionValue T (pre ++ a :: post) = none) ∧
    (T.isWrapper = false → is_convertible T dt = true → post ≠ [] →
      GetOptionValueWithDefault T dt dv (pre ++ a :: post) = convert T a.value dt) := by
  refine ⟨getOptionValue_firstMatch T pre post a ha hpre, ?_, ?_⟩
  · intro hT
    rw [getOptionValue_firstMatch T pre post a ha hpre]
    simp [extractMValue, ha, hT]
  · intro _ hconv hpost
    cases post with
    | nil => exact absurd rfl hpost
    | cons c cs => exact getOptionValueWithDefault_firstMatch_scalar T dt dv pre a c cs ha hpre hconv

/-- Witness for C9: the scalar option `EnumE` matched at the first of two
positions; `GetOptionValue` is ill-formed on it, the default-aware lookup
passes it through. -/
theorem claim_C9_witness :
    (⟨EnumE, .enumV "E" 3⟩ : Arg).type = EnumE ∧
    EnumE.isWrapper = false ∧
    is_convertible EnumE EnumE = true ∧
    GetOptionValue EnumE [⟨EnumE, .enumV "E" 3⟩, ⟨VerboseLogs, .boolV false⟩] = none ∧
    GetOptionValueWithDefault EnumE EnumE (.enumV "E" 0)
      [⟨EnumE, .enumV "E" 3⟩, ⟨VerboseLogs, .boolV false⟩] = some (.enumV "E" 3) := by
  have h := claim_C9 EnumE [] [⟨VerboseLogs, .boolV false⟩] ⟨EnumE, .enumV "E" 3⟩ rfl
    (by decide) EnumE (.enumV "E" 0)
  refine ⟨rfl, by decide, by decide, ?_, ?_⟩
  · simpa using h.2.1 (by decide)
  · have h3 := h.2.2 (by decide) (by decide) (by simp)
    simp only [List.nil_append] at h3
    rw [h3]
    decide

/-- C10: both lookups are deterministic functions of the element types and
element values of the Argument Sequence (plus, for the default-aware
lookup, the supplied default): sequences that agree pointwise in type and
value give equal results. -/
theorem claim_C10 (T dt : CppType) (dv : Value) (args1 args2 : List Arg)
    (hlen : args1.length = args2.length)
    (helem : ∀ (i : Nat) (h1 : i < args1.length) (h2 : i < args2.length),
      (args1.get ⟨i, h1⟩).type = (args2.get ⟨i, h2⟩).type ∧
      (args1.get ⟨i, h1⟩).value = (args2.get ⟨i, h2⟩).value) :
    GetOptionValue T args1 = GetOptionValue T args2 ∧
    GetOptionValueWithDefault T dt dv args1 = GetOptionValueWithDefault T dt dv args2 := by
  have heq : args1 = args2 := by
    apply List.ext_get hlen
    intro i h1 h2
    exact arg_eq_of_parts _ _ (helem i h1 h2).1 (helem i h1 h2).2
  rw [heq]
  exact ⟨rfl, rfl⟩

/-- Witness for C10: two pointwise-equal one-element sequences. -/
theorem claim_C10_witness :
    GetOptionValue ItemCount [⟨ItemCount, .intV 3⟩] =
      GetOptionValue ItemCount [⟨ItemCount, .intV 3⟩] ∧
    GetOptionValueWithDefault ItemCount .intT (.intV 7) [⟨ItemCount, .intV 3⟩] =
      GetOptionValueWithDefault ItemCount .intT (.intV 7) [⟨ItemCount, .intV 3⟩] :=
  claim_C10 ItemCount .intT (.intV 7) [⟨ItemCount, .intV 3⟩] [⟨ItemCount, .intV 3⟩] rfl
    (fun _ _ _ => ⟨rfl, rfl⟩)

end OptionalArgs
